import Mathlib

/-
Verification of the CybOX object-graph marshaling core (cybox/core/object.py
together with the generated disk binding cybox/bindings/disk_object_1_3.py)
against its natural-language specification.

The Python source is shallowly embedded: each class becomes a Lean structure
or inductive; methods become functions; Python exceptions become an explicit
error type threaded through `Except`; the process-wide identifier registry
(`cybox.utils.cache_put` / `cache_get`) and the id generator
(`mixbox.idgen.create_id`) become an explicit `Env` state record passed and
returned by the functions that touch them.

Python truthiness is modelled where the source branches on it: an
`Option String` is truthy when it is `some s` with `s` nonempty; entity
instances (ObjectProperties, VocabString, binding objects) are always truthy
(they define no `__bool__`/`__len__`); a dict is truthy when it has a key.
One conflation is inherited from the record representation of dicts: a key
present with value `None` is identified with an absent key.  The emitters in
the source only ever write truthy values, except for the reference-node
`to_dict`, which writes `{'idref': self.idref}` unconditionally; the
conflation therefore only blurs the corner where a reference node has no
idref, which no claim depends on.
-/

namespace CyboxModel

/-- Python exceptions raised by the embedded code. -/
inductive PyErr where
  | valueError (msg : String)
  | keyError (key : String)
  | indexError
  | attributeError
  | notImplementedError
  | cacheMiss
  | gdsParseError (msg : String)
deriving DecidableEq, Repr

/-- Truthiness of an optional Python string: `None` and `""` are falsy. -/
def strTruthy : Option String → Bool
  | some s => s ≠ ""
  | none => false

/-- Keep an optional string only when it is truthy (models `if self.x:` guards
around emission of string-valued fields). -/
def keepTruthy (o : Option String) : Option String :=
  if strTruthy o then o else none

instance {ε α : Type} [DecidableEq ε] [DecidableEq α] : DecidableEq (Except ε α) :=
  fun x y =>
    match x, y with
    | .ok a, .ok b =>
        if h : a = b then isTrue (by rw [h])
        else isFalse (by intro hh; cases hh; exact h rfl)
    | .error a, .error b =>
        if h : a = b then isTrue (by rw [h])
        else isFalse (by intro hh; cases hh; exact h rfl)
    | .ok _, .error _ => isFalse (by intro hh; cases hh)
    | .error _, .ok _ => isFalse (by intro hh; cases hh)

/-- Reduction of a monadic bind on a successful `Except`. -/
@[simp] theorem except_bind_ok {α β ε : Type} (a : α) (f : α → Except ε β) :
    (do let x ← Except.ok a; f x) = f a := rfl

/-- Reduction of a monadic bind on a failed `Except`. -/
@[simp] theorem except_bind_error {α β ε : Type} (e : ε) (f : α → Except ε β) :
    (do let x ← (Except.error e : Except ε α); f x) = Except.error e := rfl

/-- A vocabulary string (`cybox.common.vocabs.VocabString`).  Modelled from the
spec: the class is not under src/; §3 describes `relationship` as "drawn from an
open-or-closed vocabulary string type"; its dict and binding forms are the bare
value string and `VocabFactory.from_dict`/`from_obj` rebuild it from that. -/
structure VocabString where
  value : String
deriving DecidableEq, Repr

/-- A payload entity (`cybox.common.object_properties.ObjectProperties`).
Modelled from the spec: the class is not under src/.  It carries a concrete
class name (the source of the id prefix in `Object.__init__` and of the
serialized discriminator), opaque content, and the in-memory `parent`
back-pointer set by `_modify_childs_parent`.  `parent` is recorded as the
owning object's `id_` (itself an `Option String`, since an owner can lack an
id): `none` means no parent, `some pid` means a parent whose `id_` is `pid`. -/
structure ObjectProperties where
  className : String
  content : String
  parent : Option (Option String) := none
deriving DecidableEq, Repr

/-- Serialized form of an `ObjectProperties` payload, used both as its dict
representation and as its bindings-object representation.  Modelled from the
spec: `ObjectPropertiesFactory` is not under src/; per §4.1/§4.2 the payload
serializes its fields together with its discriminator and the factory resolves
the discriminator back to the same concrete type. -/
structure PropsForm where
  xsiType : String
  content : String
deriving DecidableEq, Repr

/-- Modelled from the spec: payload serialization (both directions share it). -/
def ObjectProperties.toForm (p : ObjectProperties) : PropsForm :=
  ⟨p.className, p.content⟩

/-- Modelled from the spec: `ObjectPropertiesFactory.from_dict`/`from_obj`,
rebuilding the payload from its serialized form (the in-memory `parent`
pointer is not serialized). -/
def ObjectPropertiesFactory.fromForm (f : Option PropsForm) : Option ObjectProperties :=
  f.map fun pf => ⟨pf.xsiType, pf.content, none⟩

/-- An instance of a `DomainSpecificObjectProperties` subclass.  No concrete
subclass exists under src/; per the source's factory protocol an instance is
characterized by its class constants `_XSI_NS` and `_XSI_TYPE` and by the name
under which its class is registered in the module's `globals()`. -/
structure Dsop where
  xsiNS : String
  xsiType : String
  klassName : String
deriving DecidableEq, Repr

/-- Dict representation handed to `DomainSpecificObjectProperties.from_dict`:
a Python dict with string keys and string values, as an association list
(first binding wins on lookup, as a Python dict has unique keys). -/
abbrev DsopDict := List (String × String)

/-- The bindings object populated by `DomainSpecificObjectProperties.to_obj`
and read by `from_obj`: only its `xsi_type` attribute is touched. -/
structure DsopB where
  xsi_type : Option String
deriving DecidableEq, Repr

/-- The module `globals()` dict seen by the polymorphic factory, restricted to
the registered implementation classes: class name to class. -/
abbrev DsopRegistry := List (String × Dsop)

mutual
/-- The CybOX `Object` entity (cybox/core/object.py, class `Object`): fields
`id_`, `idref`, `properties`, `related_objects`,
`domain_specific_object_properties`. -/
inductive Object : Type where
  | mk (id_ : Option String) (idref : Option String)
       (properties : Option ObjectProperties)
       (related_objects : RelObjList)
       (domain_specific_object_properties : Option Dsop) : Object
deriving DecidableEq, Repr

/-- The CybOX `RelatedObject` entity (class `RelatedObject(Object)`): the
inherited `Object` fields plus `relationship` and `_inline`. -/
inductive RelatedObject : Type where
  | mk (core : Object) (relationship : Option VocabString) (isInline : Bool) : RelatedObject
deriving DecidableEq, Repr

/-- The `related_objects` list of an `Object`. -/
inductive RelObjList : Type where
  | nil : RelObjList
  | cons (head : RelatedObject) (tail : RelObjList) : RelObjList
deriving DecidableEq, Repr
end

def Object.id_ : Object → Option String
  | .mk i _ _ _ _ => i

def Object.idref : Object → Option String
  | .mk _ ir _ _ _ => ir

def Object.properties : Object → Option ObjectProperties
  | .mk _ _ pr _ _ => pr

def Object.related_objects : Object → RelObjList
  | .mk _ _ _ rel _ => rel

def Object.dsop : Object → Option Dsop
  | .mk _ _ _ _ ds => ds

def RelatedObject.core : RelatedObject → Object
  | .mk c _ _ => c

def RelatedObject.relationship : RelatedObject → Option VocabString
  | .mk _ r _ => r

def RelatedObject.isInline : RelatedObject → Bool
  | .mk _ _ b => b

def RelObjList.append : RelObjList → RelObjList → RelObjList
  | .nil, l => l
  | .cons h t, l => .cons h (t.append l)

/-- The ambient state of the identifier subsystem: the counter backing
`mixbox.idgen.create_id` (the source generates `prefix + "-" + unique-suffix`;
the suffix is modelled as a counter value) and the process-wide registry behind
`cybox.utils.cache_put`/`cache_get` (an insert-or-overwrite map, modelled as an
association list whose head binding wins, so the last writer wins). -/
structure Env where
  counter : Nat
  cache : List (String × Object)
deriving DecidableEq, Repr

/-- `mixbox.idgen.create_id(prefix=pfx)`: a fresh process-unique id. -/
def create_id (pfx : String) (env : Env) : String × Env :=
  (pfx ++ "-" ++ toString env.counter, { env with counter := env.counter + 1 })

/-- `cybox.utils.cache_put(obj)`: insert or overwrite under the given key.
For a `RelatedObject` the source stores the instance itself; only the
`properties` of cached entries is ever read back (`get_properties`), so the
cache stores the inherited `Object` core. -/
def cache_put (env : Env) (key : String) (o : Object) : Env :=
  { env with cache := (key, o) :: env.cache }

/-- `cybox.utils.cache_get(id)`: the live entity, or the CacheMiss failure. -/
def cache_get (env : Env) (key : String) : Except PyErr Object :=
  match env.cache.lookup key with
  | some o => .ok o
  | none => .error .cacheMiss

/-- The source's `if obj.id_: cybox.utils.cache_put(obj)` epilogue of
`from_obj`/`from_dict`. -/
def cachePutIfId (env : Env) (o : Object) : Env :=
  match o.id_ with
  | some s => if s = "" then env else cache_put env s o
  | none => env

/-- `Object.__init__(properties)`: choose the id prefix from the payload's
class name (sentinel `"Object"` when there is no payload), draw a fresh id,
run the `properties` setter (which for a plain `Object` sets the payload's
`parent` to the object whenever the payload is truthy), and start with no
`idref`, no related objects and no domain-specific properties.  No
registration in the identifier registry happens here. -/
def Object.init (properties : Option ObjectProperties) (env : Env) : Object × Env :=
  let pfx := match properties with
    | some p => p.className
    | none => "Object"
  let (newId, env) := create_id pfx env
  let props := properties.map fun p => { p with parent := some (some newId) }
  (Object.mk (some newId) none props .nil none, env)

/-- `RelatedObject.__init__(properties, relationship=..., inline=...)`: pop
`relationship` and `_inline`, run `Object.__init__` (whose `properties` setter
dispatches to `RelatedObject._modify_childs_parent`, which touches the
payload's `parent` only when `_inline`), then, when not inline and the payload
is truthy, set `idref` from `self.properties.parent.id_` (an `AttributeError`
when the payload has no parent). -/
def RelatedObject.init (properties : Option ObjectProperties)
    (relationship : Option VocabString) (inl : Bool) (env : Env) :
    Except PyErr (RelatedObject × Env) :=
  let pfx := match properties with
    | some p => p.className
    | none => "Object"
  let (newId, env) := create_id pfx env
  let props := if inl then properties.map (fun p => { p with parent := some (some newId) })
               else properties
  match inl, props with
  | false, some p =>
      match p.parent with
      | none => .error .attributeError
      | some pid =>
          .ok (RelatedObject.mk (Object.mk (some newId) pid (some p) .nil none)
                 relationship false, env)
  | _, _ =>
      .ok (RelatedObject.mk (Object.mk (some newId) none props .nil none)
             relationship inl, env)

/-- `RelatedObject.get_properties()`: the owned payload when present
(`if self.properties:`), else a registry lookup of a truthy `idref`
(re-raising `CacheMiss` unchanged), else `None`. -/
def RelatedObject.get_properties (env : Env) (r : RelatedObject) :
    Except PyErr (Option ObjectProperties) :=
  match r.core.properties with
  | some p => .ok (some p)
  | none =>
      match r.core.idref with
      | some s =>
          if s = "" then .ok none
          else
            match cache_get env s with
            | .ok o => .ok o.properties
            | .error e => .error e
      | none => .ok none

mutual
/-- The dict produced by `Object.to_dict` and consumed by `Object.from_dict`:
keys `id`, `idref`, `properties`, `related_objects`,
`domain_specific_object_properties`.  `none` / `.nil` model an absent key. -/
inductive ObjDict : Type where
  | mk (id : Option String) (idref : Option String)
       (properties : Option PropsForm) (related_objects : RelDictList)
       (dsop : Option DsopDict) : ObjDict
deriving DecidableEq, Repr

/-- The dict produced by `RelatedObject.to_dict`: the `Object` keys (or, for a
reference node, just `idref`) plus an optional `relationship` key. -/
inductive RelDict : Type where
  | mk (core : ObjDict) (relationship : Option String) : RelDict
deriving DecidableEq, Repr

/-- The list under the `related_objects` key. -/
inductive RelDictList : Type where
  | nil : RelDictList
  | cons (head : RelDict) (tail : RelDictList) : RelDictList
deriving DecidableEq, Repr
end

def ObjDict.id : ObjDict → Option String
  | .mk i _ _ _ _ => i

def ObjDict.idref : ObjDict → Option String
  | .mk _ ir _ _ _ => ir

def ObjDict.properties : ObjDict → Option PropsForm
  | .mk _ _ pr _ _ => pr

def ObjDict.related_objects : ObjDict → RelDictList
  | .mk _ _ _ rel _ => rel

def ObjDict.dsop : ObjDict → Option DsopDict
  | .mk _ _ _ _ ds => ds

def RelDict.core : RelDict → ObjDict
  | .mk c _ => c

def RelDict.relationship : RelDict → Option String
  | .mk _ r => r

/-- Python truthiness of the record representing an `Object` dict: a dict is
truthy when it has at least one key. -/
def ObjDict.truthy : ObjDict → Bool
  | .mk i ir pr rel ds =>
      i.isSome || ir.isSome || pr.isSome ||
      (match rel with | .nil => false | .cons _ _ => true) || ds.isSome

def RelDict.truthy : RelDict → Bool
  | .mk c r => c.truthy || r.isSome

mutual
/-- The bindings object built by `Object.to_obj` (class
`cybox_core.ObjectType`): attributes `id`, `idref`, child elements
`Properties`, `Related_Objects`, `Domain_Specific_Object_Properties`.
`.nil` for `Related_Objects` models the absent `RelatedObjectsType` wrapper. -/
inductive ObjB : Type where
  | mk (id : Option String) (idref : Option String)
       (Properties : Option PropsForm) (Related_Objects : RelBList)
       (dsop : Option DsopB) : ObjB
deriving DecidableEq, Repr

/-- The bindings object built by `RelatedObject.to_obj` (class
`cybox_core.RelatedObjectType`): the `ObjectType` fields plus `Relationship`
(a vocabulary binding, carried as its value string). -/
inductive RelB : Type where
  | mk (core : ObjB) (Relationship : Option String) : RelB
deriving DecidableEq, Repr

/-- The `Related_Object` list inside a `RelatedObjectsType`. -/
inductive RelBList : Type where
  | nil : RelBList
  | cons (head : RelB) (tail : RelBList) : RelBList
deriving DecidableEq, Repr
end

def ObjB.id : ObjB → Option String
  | .mk i _ _ _ _ => i

def ObjB.idref : ObjB → Option String
  | .mk _ ir _ _ _ => ir

def ObjB.Properties : ObjB → Option PropsForm
  | .mk _ _ pr _ _ => pr

def ObjB.Related_Objects : ObjB → RelBList
  | .mk _ _ _ rel _ => rel

def ObjB.dsop : ObjB → Option DsopB
  | .mk _ _ _ _ ds => ds

def ObjB.setIdref (b : ObjB) (ir : Option String) : ObjB :=
  match b with
  | .mk i _ pr rel ds => .mk i ir pr rel ds

def RelB.core : RelB → ObjB
  | .mk c _ => c

def RelB.Relationship : RelB → Option String
  | .mk _ r => r

mutual
/-- `Object.to_dict`: emit `id`, `idref` when truthy, `properties` when
present, `related_objects` when nonempty; a present
`domain_specific_object_properties` is serialized by calling its `to_dict()`
with no argument, so the base class (the only implementation under src/)
raises `NotImplementedError`. -/
def Object.to_dict : Object → Except PyErr ObjDict
  | .mk i ir pr rel ds => do
      let relD ← RelObjList.to_dict rel
      match ds with
      | some _ => .error .notImplementedError
      | none =>
          .ok (ObjDict.mk (keepTruthy i) (keepTruthy ir)
                (pr.map ObjectProperties.toForm) relD none)

/-- `RelatedObject.to_dict`: for an inline node the full `Object` dict, for a
reference node the dict `{'idref': self.idref}` (written unconditionally);
then the `relationship` key when the relationship is set. -/
def RelatedObject.to_dict : RelatedObject → Except PyErr RelDict
  | .mk core r inl => do
      if inl then
        let d ← Object.to_dict core
        .ok (RelDict.mk d (r.map VocabString.value))
      else
        .ok (RelDict.mk (ObjDict.mk none core.idref none .nil none)
              (r.map VocabString.value))

def RelObjList.to_dict : RelObjList → Except PyErr RelDictList
  | .nil => .ok .nil
  | .cons h t => do
      let hd ← RelatedObject.to_dict h
      let td ← RelObjList.to_dict t
      .ok (.cons hd td)
end

mutual
/-- `Object.to_obj`: emit `id`, `idref` when truthy, `Properties` when
present, `Related_Objects` when nonempty; a present
`domain_specific_object_properties` is serialized through
`to_obj(ns_info=...)`, leaving `return_obj=None`, so the base class raises
`NotImplementedError`. -/
def Object.to_obj : Object → Except PyErr ObjB
  | .mk i ir pr rel ds => do
      let relB ← RelObjList.to_obj rel
      match ds with
      | some _ => .error .notImplementedError
      | none =>
          .ok (ObjB.mk (keepTruthy i) (keepTruthy ir)
                (pr.map ObjectProperties.toForm) relB none)

/-- `RelatedObject.to_obj`: the full `Object` binding from `super().to_obj()`
(payload included even for a reference node), then `idref` assigned raw when
not inline, then `Relationship` when set. -/
def RelatedObject.to_obj : RelatedObject → Except PyErr RelB
  | .mk core r inl => do
      let b ← Object.to_obj core
      let b := if inl then b else b.setIdref core.idref
      .ok (RelB.mk b (r.map VocabString.value))

def RelObjList.to_obj : RelObjList → Except PyErr RelBList
  | .nil => .ok .nil
  | .cons h t => do
      let hb ← RelatedObject.to_obj h
      let tb ← RelObjList.to_obj t
      .ok (.cons hb tb)
end

/-- Python's `str.rstrip('Type')`: strip trailing characters drawn from the
character set of `'Type'` (not the suffix `"Type"`). -/
def pyRstripType (s : String) : String :=
  String.mk ((s.toList.reverse.dropWhile
    (fun c => c = 'T' || c = 'y' || c = 'p' || c = 'e')).reverse)

/-- Helper for `str.split(':')`: accumulate the current piece (reversed) and
cut at every `':'`. -/
def splitColonAux : List Char → List Char → List String
  | [], acc => [String.mk acc.reverse]
  | c :: rest, acc =>
      if c = ':' then String.mk acc.reverse :: splitColonAux rest []
      else splitColonAux rest (c :: acc)

/-- Python's `s.split(':')`: the pieces between `':'` separators, keeping
empty pieces (`"".split(':') == ['']`). -/
def pySplitColon (s : String) : List String :=
  splitColonAux s.toList []

/-- `xsi_type.split(':')[1].rstrip('Type')`: the class name the factory looks
up.  Indexing `[1]` raises `IndexError` when the split has fewer than two
parts, i.e. when the discriminator contains no `':'`. -/
def klassNameOf (xsiType : String) : Except PyErr String :=
  match pySplitColon xsiType with
  | _ :: b :: _ => .ok (pyRstripType b)
  | _ => .error .indexError

/-- `klass.from_obj(cls_obj)` / `klass.from_dict(cls_dict)` for a registered
`DomainSpecificObjectProperties` subclass.  Modelled from the spec: no
concrete subclass is under src/; per §4.2 the resolved constructor yields an
instance of the registered concrete type. -/
def dsopKlassParse (klass : Dsop) : Except PyErr (Option Dsop) :=
  .ok (some klass)

/-- `DomainSpecificObjectProperties.to_obj(return_obj, ns_info)`: raise
`NotImplementedError` when no `return_obj` is supplied, else stamp
`xsi_type = "%s:%s" % (self._XSI_NS, self._XSI_TYPE)` onto it. -/
def Dsop.to_obj (d : Dsop) (return_obj : Option DsopB) : Except PyErr DsopB :=
  match return_obj with
  | none => .error .notImplementedError
  | some b => .ok { b with xsi_type := some (d.xsiNS ++ ":" ++ d.xsiType) }

/-- Python dict assignment `d[k] = v` on an association list. -/
def dictSet (d : DsopDict) (k v : String) : DsopDict :=
  (k, v) :: d.filter (fun kv => kv.1 ≠ k)

/-- `DomainSpecificObjectProperties.to_dict(partial_dict)`: raise
`NotImplementedError` when no `partial_dict` is supplied, else write
`partial_dict['xsi:type'] = self._XSI_TYPE` (no namespace prefix). -/
def Dsop.to_dict (d : Dsop) (partial_dict : Option DsopDict) : Except PyErr DsopDict :=
  match partial_dict with
  | none => .error .notImplementedError
  | some pd => .ok (dictSet pd "xsi:type" d.xsiType)

/-- `DomainSpecificObjectProperties.from_obj`: `None` for a falsy input, a
`ValueError` for a falsy `xsi_type`, else resolve
`xsi_type.split(':')[1].rstrip('Type')` in the module `globals()` (a
`KeyError` when unregistered) and delegate to the found class. -/
def Dsop.from_obj (reg : DsopRegistry) (cls_obj : Option DsopB) :
    Except PyErr (Option Dsop) :=
  match cls_obj with
  | none => .ok none
  | some b =>
      match b.xsi_type with
      | none => .error (.valueError "Object has no xsi:type")
      | some x =>
          if x = "" then .error (.valueError "Object has no xsi:type")
          else do
            let kn ← klassNameOf x
            match reg.lookup kn with
            | none => .error (.keyError kn)
            | some klass => dsopKlassParse klass

/-- `DomainSpecificObjectProperties.from_dict`: `None` for a falsy input, a
`ValueError` when the `xsi:type` key is absent or falsy, else the same
resolution as `from_obj`. -/
def Dsop.from_dict (reg : DsopRegistry) (cls_dict : Option DsopDict) :
    Except PyErr (Option Dsop) :=
  match cls_dict with
  | none => .ok none
  | some d =>
      if d = [] then .ok none
      else
        match d.lookup "xsi:type" with
        | none => .error (.valueError "dictionary does not have xsi:type key")
        | some x =>
            if x = "" then .error (.valueError "dictionary does not have xsi:type key")
            else do
              let kn ← klassNameOf x
              match reg.lookup kn with
              | none => .error (.keyError kn)
              | some klass => dsopKlassParse klass

mutual
/-- The body of `Object.from_dict` past the falsy-input check.
`super(Object, cls).from_dict` builds a fresh default instance via `cls()`,
consuming one generated id that the explicit assignments below overwrite;
`obj.properties = ObjectPropertiesFactory.from_dict(...)` runs the
`properties` setter, which sets the payload's `parent` to the object (for a
`RelatedObject` instance `_inline` still holds its default `True` at this
point, so the `RelatedObject` override also sets it); the related objects are
parsed recursively; finally `cache_put(obj)` registers the object when its
parsed `id` is truthy. -/
def Object.from_dict_core (reg : DsopRegistry) (d : ObjDict) (env : Env) :
    Except PyErr (Object × Env) :=
  match d with
  | .mk i ir pr rel ds => do
      let env := (create_id "Object" env).2
      let props := (ObjectPropertiesFactory.fromForm pr).map
        (fun p => { p with parent := some i })
      let (relChildren, env) ← RelObjList.from_dict reg rel env
      let dsopV ← Dsop.from_dict reg ds
      let o := Object.mk i ir props relChildren dsopV
      .ok (o, cachePutIfId env o)

/-- The body of `RelatedObject.from_dict` past the falsy-input check:
`Object.from_dict` on the same dict, then the `relationship` setter on
`VocabFactory.from_dict(...)`, then `if relobj.idref: relobj._inline = True`
(the default `_inline` from `cls()` is already `True`, so the flag is `True`
either way). -/
def RelatedObject.from_dict_core (reg : DsopRegistry) (e : RelDict) (env : Env) :
    Except PyErr (RelatedObject × Env) :=
  match e with
  | .mk core rl => do
      let (o, env) ← Object.from_dict_core reg core env
      .ok (RelatedObject.mk o (rl.map VocabString.mk) true, env)

/-- `[RelatedObject.from_dict(x) for x in cls_dict.get('related_objects', [])]`.
The entries of a serialized list are themselves truthy dicts, so the falsy
check at the head of `RelatedObject.from_dict` does not fire on them and the
core parser applies directly. -/
def RelObjList.from_dict (reg : DsopRegistry) (l : RelDictList) (env : Env) :
    Except PyErr (RelObjList × Env) :=
  match l with
  | .nil => .ok (.nil, env)
  | .cons h t => do
      let (hv, env) ← RelatedObject.from_dict_core reg h env
      let (tv, env) ← RelObjList.from_dict reg t env
      .ok (.cons hv tv, env)
end

/-- `Object.from_dict`: `None` for a falsy input (`None` or an empty dict),
else the parsed entity. -/
def Object.from_dict (reg : DsopRegistry) (d : Option ObjDict) (env : Env) :
    Except PyErr (Option Object × Env) :=
  match d with
  | none => .ok (none, env)
  | some dd =>
      if dd.truthy then
        (Object.from_dict_core reg dd env).map (fun p => (some p.1, p.2))
      else .ok (none, env)

/-- `RelatedObject.from_dict`: `None` for a falsy input, else the parsed
related object. -/
def RelatedObject.from_dict (reg : DsopRegistry) (e : Option RelDict) (env : Env) :
    Except PyErr (Option RelatedObject × Env) :=
  match e with
  | none => .ok (none, env)
  | some ee =>
      if ee.truthy then
        (RelatedObject.from_dict_core reg ee env).map (fun p => (some p.1, p.2))
      else .ok (none, env)

mutual
/-- The body of `Object.from_obj` past the falsy-input check: assign `id_`,
`idref` and the factory-parsed `Properties` (through the `properties` setter,
which sets the payload's `parent`), parse `Related_Objects` when present, then
`cache_put(obj)` when the parsed `id` is truthy. -/
def Object.from_obj_core (reg : DsopRegistry) (b : ObjB) (env : Env) :
    Except PyErr (Object × Env) :=
  match b with
  | .mk i ir pr rel ds => do
      let env := (create_id "Object" env).2
      let props := (ObjectPropertiesFactory.fromForm pr).map
        (fun p => { p with parent := some i })
      let dsopV ← Dsop.from_obj reg ds
      let (relChildren, env) ← RelBList.from_obj reg rel env
      let o := Object.mk i ir props relChildren dsopV
      .ok (o, cachePutIfId env o)

/-- The body of `RelatedObject.from_obj` past the falsy-input check:
`Object.from_obj` on the same bindings object, the `relationship` setter on
`VocabFactory.from_obj(...)`, then `if relobj.idref: relobj._inline = True`
(already the default). -/
def RelatedObject.from_obj_core (reg : DsopRegistry) (e : RelB) (env : Env) :
    Except PyErr (RelatedObject × Env) :=
  match e with
  | .mk core rl => do
      let (o, env) ← Object.from_obj_core reg core env
      .ok (RelatedObject.mk o (rl.map VocabString.mk) true, env)

/-- `[RelatedObject.from_obj(x) for x in rel_objs.Related_Object]`: the list
entries are bindings objects, which are always truthy, so the core parser
applies directly. -/
def RelBList.from_obj (reg : DsopRegistry) (l : RelBList) (env : Env) :
    Except PyErr (RelObjList × Env) :=
  match l with
  | .nil => .ok (.nil, env)
  | .cons h t => do
      let (hv, env) ← RelatedObject.from_obj_core reg h env
      let (tv, env) ← RelBList.from_obj reg t env
      .ok (.cons hv tv, env)
end

/-- `Object.from_obj`: `None` for a falsy input (only `None`: bindings
objects are always truthy), else the parsed entity. -/
def Object.from_obj (reg : DsopRegistry) (b : Option ObjB) (env : Env) :
    Except PyErr (Option Object × Env) :=
  match b with
  | none => .ok (none, env)
  | some bb => (Object.from_obj_core reg bb env).map (fun p => (some p.1, p.2))

/-- `RelatedObject.from_obj`: `None` for a falsy input, else the parsed
related object. -/
def RelatedObject.from_obj (reg : DsopRegistry) (e : Option RelB) (env : Env) :
    Except PyErr (Option RelatedObject × Env) :=
  match e with
  | none => .ok (none, env)
  | some ee => (RelatedObject.from_obj_core reg ee env).map (fun p => (some p.1, p.2))

/-- `raise_parse_error(node, msg)` in the disk binding: raises `GDSParseError`
(the element path / line decoration does not change which error is raised). -/
def raise_parse_error (msg : String) : Except PyErr String :=
  .error (.gdsParseError msg)

/-- `GeneratedsSuper.gds_validate_boolean`: returns the input unchanged, with
no validation at all. -/
def gds_validate_boolean (input_data : String) : Except PyErr String :=
  .ok input_data

/-- Helper for `str.split()`: cut at whitespace runs, discarding empty
pieces; `acc` carries the current piece reversed. -/
def splitWsAux : List Char → List Char → List String
  | [], acc => if acc.isEmpty then [] else [String.mk acc.reverse]
  | c :: rest, acc =>
      if c.isWhitespace then
        if acc.isEmpty then splitWsAux rest []
        else String.mk acc.reverse :: splitWsAux rest []
      else splitWsAux rest (c :: acc)

/-- Python's `str.split()` with no argument: split on runs of whitespace,
discarding empty pieces. -/
def pySplitWs (s : String) : List String :=
  splitWsAux s.toList []

/-- Membership of one token in the boolean text domain. -/
def isBooleanToken (v : String) : Bool :=
  v = "true" || v = "1" || v = "false" || v = "0"

/-- `GeneratedsSuper.gds_validate_boolean_list`: split the input on
whitespace and raise a parse error on the first token outside
`{"true","1","false","0"}`, else return the input unchanged. -/
def gds_validate_boolean_list (input_data : String) : Except PyErr String :=
  if (pySplitWs input_data).all isBooleanToken then .ok input_data
  else raise_parse_error "Requires sequence of booleans (true, 1, false, 0)"

/-- An arbitrary Python value as seen by the `properties` setter, classified
by the two tests the setter makes: `isinstance(value, ObjectProperties)` and
truthiness.  `ObjectProperties` instances are always truthy. -/
inductive PyVal where
  | pyNone
  | pyProps (p : ObjectProperties)
  | pyOther (truthy : Bool)
deriving DecidableEq, Repr

def PyVal.truthy : PyVal → Bool
  | .pyNone => false
  | .pyProps _ => true
  | .pyOther t => t

def PyVal.isProps : PyVal → Bool
  | .pyProps _ => true
  | _ => false

/-- The slice of instance state the `properties` setter touches: the object's
`id_` (what the payload's `parent` pointer records here), the `_properties`
slot, and the flags deciding which `_modify_childs_parent` runs
(`RelatedObject`'s override only touches the parent when `_inline`). -/
structure SlotState where
  id_ : Option String
  slot : PyVal
  isRelated : Bool
  isInline : Bool
deriving DecidableEq, Repr

/-- The `Object.properties` setter: raise `ValueError` for a truthy value
that is not an `ObjectProperties` (leaving the slot unchanged, since the
raise precedes the assignment), else store the value and run
`_modify_childs_parent`, which sets the stored payload's `parent` to the
object when the slot is truthy (and, on a `RelatedObject`, only when
`_inline`). -/
def propertiesSetter (st : SlotState) (value : PyVal) : Except PyErr SlotState :=
  if value.truthy && !value.isProps then
    .error (.valueError "Not a ObjectProperties")
  else
    let st := { st with slot := value }
    if (!st.isRelated || st.isInline) && st.slot.truthy then
      match st.slot with
      | .pyProps p => .ok { st with slot := .pyProps { p with parent := some st.id_ } }
      | v => .ok { st with slot := v }
    else .ok st

def Object.appendRelated (o : Object) (r : RelatedObject) : Object :=
  match o with
  | .mk i ir pr rel ds => .mk i ir pr (rel.append (.cons r .nil)) ds

/-- `Object.add_related(related, relationship, inline=True)`: raise
`ValueError` for any value that is not an `ObjectProperties`, else build a
`RelatedObject` around it and append it to `related_objects`. -/
def Object.add_related (o : Object) (related : PyVal)
    (relationship : Option VocabString) (inl : Bool) (env : Env) :
    Except PyErr (Object × Env) :=
  match related with
  | .pyProps p => do
      let (r, env) ← RelatedObject.init (some p) relationship inl env
      .ok (o.appendRelated r, env)
  | _ => .error (.valueError "Must be a ObjectProperties")

mutual
/-- Well-formedness of an `Object` for the round-trip law: a truthy `id_`
(so the serialized dict is itself truthy), an `idref` that is `none` or
truthy, a payload whose `parent` records the owner, no
domain-specific properties (the base class cannot serialize them), and
well-formed related entries. -/
def Object.wf : Object → Bool
  | .mk i ir pr rel ds =>
      strTruthy i &&
      (match ir with | some s => s ≠ "" | none => true) &&
      (match pr with | some p => p.parent = some i | none => true) &&
      ds.isNone && RelObjList.wf rel

/-- Well-formedness of a `RelatedObject` for the round-trip law: inline, with
a well-formed core. -/
def RelatedObject.wf : RelatedObject → Bool
  | .mk core _ inl => inl && Object.wf core

def RelObjList.wf : RelObjList → Bool
  | .nil => true
  | .cons h t => RelatedObject.wf h && RelObjList.wf t
end

/-- `Object.from_dict(Object.to_dict(o))`, the resulting entity. -/
def Object.roundDict (reg : DsopRegistry) (o : Object) (env : Env) :
    Except PyErr (Option Object) :=
  match Object.to_dict o with
  | .ok d => (Object.from_dict reg (some d) env).map Prod.fst
  | .error e => .error e

/-- `RelatedObject.from_dict(RelatedObject.to_dict(r))`, the resulting
entity. -/
def RelatedObject.roundDict (reg : DsopRegistry) (r : RelatedObject) (env : Env) :
    Except PyErr (Option RelatedObject) :=
  match RelatedObject.to_dict r with
  | .ok e => (RelatedObject.from_dict reg (some e) env).map Prod.fst
  | .error e => .error e

/-- `Object.from_obj(Object.to_obj(o))`, the resulting entity. -/
def Object.roundObj (reg : DsopRegistry) (o : Object) (env : Env) :
    Except PyErr (Option Object) :=
  match Object.to_obj o with
  | .ok b => (Object.from_obj reg (some b) env).map Prod.fst
  | .error e => .error e

/-- `RelatedObject.from_obj(RelatedObject.to_obj(r))`, the resulting
entity. -/
def RelatedObject.roundObj (reg : DsopRegistry) (r : RelatedObject) (env : Env) :
    Except PyErr (Option RelatedObject) :=
  match RelatedObject.to_obj r with
  | .ok e => (RelatedObject.from_obj reg (some e) env).map Prod.fst
  | .error e => .error e

/-- Serialize a domain-specific-properties instance into a bindings object
and re-resolve it through the polymorphic factory. -/
def Dsop.roundObj (reg : DsopRegistry) (d : Dsop) (b0 : DsopB) :
    Except PyErr (Option Dsop) :=
  match d.to_obj (some b0) with
  | .ok b => Dsop.from_obj reg (some b)
  | .error e => .error e

/-- Serialize a domain-specific-properties instance into a dict and
re-resolve it through the polymorphic factory. -/
def Dsop.roundDict (reg : DsopRegistry) (d : Dsop) (pd : DsopDict) :
    Except PyErr (Option Dsop) :=
  match d.to_dict (some pd) with
  | .ok dd => Dsop.from_dict reg (some dd)
  | .error e => .error e

/-
Shared concrete examples.
-/

/-- A payload whose `parent` points at an owner with id `"Object-7"`. -/
def exProps : ObjectProperties := ⟨"File", "c", some (some "Object-7")⟩

/-- The initial identifier-subsystem state: counter 0, empty registry. -/
def env0 : Env := ⟨0, []⟩

/-- The reference node built by
`RelatedObject.init (some exProps) none false env0`: fresh id `"File-0"`,
`idref` copied from the payload's parent, the payload kept, `_inline = false`. -/
def exRefNode : RelatedObject :=
  RelatedObject.mk (Object.mk (some "File-0") (some "Object-7") (some exProps) .nil none)
    none false

/-- A registered domain-specific-properties class: class name `"Address"`,
`_XSI_TYPE = "AddressType"`, `_XSI_NS = "NS"`. -/
def exDsop : Dsop := ⟨"NS", "AddressType", "Address"⟩

/-- A registry holding only `exDsop` under its class name. -/
def exReg : DsopRegistry := [("Address", exDsop)]

/-
C8 — boolean text domain.
-/

/-- Claim C8 counterexample: the scalar boolean validator accepts the text
`"banana"` unchanged, although it is none of `"true"`, `"1"`, `"false"`,
`"0"`; no parse error is raised, so the accepted scalar text domain is not
the four-string set the claim states. -/
theorem gds_validate_boolean_counterexample :
    gds_validate_boolean "banana" = .ok "banana" ∧ isBooleanToken "banana" = false := by
  exact ⟨rfl, by decide⟩

/-- Claim C8 (amended): only the boolean *list* validator enforces the text
domain: it accepts an input exactly when every whitespace-separated token lies
in `{"true","1","false","0"}`, raising a parse error (via
`raise_parse_error`) otherwise; the scalar boolean validator
`gds_validate_boolean` performs no validation and returns any input text
unchanged. -/
theorem gds_boolean_validation_amended :
    (∀ s : String, gds_validate_boolean s = .ok s) ∧
    (∀ s : String,
      gds_validate_boolean_list s =
        (if (pySplitWs s).all isBooleanToken then .ok s
         else .error (.gdsParseError "Requires sequence of booleans (true, 1, false, 0)"))) ∧
    (∀ s : String, (pySplitWs s).all isBooleanToken = false →
      gds_validate_boolean_list s =
        .error (.gdsParseError "Requires sequence of booleans (true, 1, false, 0)")) := by
  refine ⟨fun s => rfl, fun s => rfl, fun s h => ?_⟩
  simp [gds_validate_boolean_list, h, raise_parse_error]

/-- Witness for the amended C8 theorem at concrete inputs. -/
theorem gds_boolean_validation_amended_witness :
    gds_validate_boolean_list "true banana" =
      .error (.gdsParseError "Requires sequence of booleans (true, 1, false, 0)") :=
  gds_boolean_validation_amended.2.2 "true banana" (by decide)

/-
C6 — discriminator resolution and the root fallback.
-/

/-- Claim C5 counterexample: serializing the registered instance `exDsop` to
a dict and re-resolving through the factory does not yield an instance of the
same concrete type — it raises `IndexError`, because `to_dict` writes the
bare `_XSI_TYPE` (no namespace prefix) while `from_dict` indexes
`split(':')[1]`, which requires one. -/
theorem dsop_dict_roundtrip_counterexample :
    Dsop.roundDict exReg exDsop [] = .error .indexError := by
  rfl

/-- Claim C5 (amended): the tree-direction round-trip preserves the concrete
type: for an instance whose class is registered under its computed key
(`_XSI_NS` and `_XSI_TYPE` free of `':'`, and `_XSI_TYPE` with its trailing
`'Type'` characters stripped equal to the registered class name),
`from_obj(to_obj(e))` resolves to the exact same instance class.  The
dict-direction round-trip always fails for such instances: `to_dict` emits
the discriminator without a namespace prefix and `from_dict` raises
`IndexError` on it. -/
theorem dsop_roundtrip_amended :
    (∀ (reg : DsopRegistry) (d : Dsop) (b0 : DsopB),
       pySplitColon (d.xsiNS ++ ":" ++ d.xsiType) = [d.xsiNS, d.xsiType] →
       pyRstripType d.xsiType = d.klassName →
       reg.lookup d.klassName = some d →
       Dsop.roundObj reg d b0 = .ok (some d)) ∧
    (∀ (reg : DsopRegistry) (d : Dsop) (pd : DsopDict),
       d.xsiType ≠ "" →
       pySplitColon d.xsiType = [d.xsiType] →
       Dsop.roundDict reg d pd = .error .indexError) := by
  constructor
  · intro reg d b0 hsplit hstrip hreg
    have hx : d.xsiNS ++ ":" ++ d.xsiType ≠ "" := by
      intro heq
      have := congrArg String.length heq
      simp [String.length_append] at this
      exact absurd this.1.2 (by decide)
    simp only [Dsop.roundObj, Dsop.to_obj, Dsop.from_obj, if_neg hx]
    rw [show klassNameOf (d.xsiNS ++ ":" ++ d.xsiType) = .ok d.klassName from ?_]
    · rw [except_bind_ok, hreg]; rfl
    · simp only [klassNameOf, hsplit]
      rw [hstrip]
  · intro reg d pd hne hsplit
    simp only [Dsop.roundDict, Dsop.to_dict, Dsop.from_dict, dictSet]
    have hcons : (("xsi:type", d.xsiType) :: pd.filter (fun kv => kv.1 ≠ "xsi:type")) ≠ [] := by
      simp
    rw [if_neg hcons]
    have hlook : (("xsi:type", d.xsiType) :: pd.filter (fun kv => kv.1 ≠ "xsi:type")).lookup "xsi:type"
        = some d.xsiType := by
      simp [List.lookup]
    rw [hlook]
    simp only [if_neg hne]
    rw [show klassNameOf d.xsiType = .error .indexError from ?_]
    · rw [except_bind_error]
    · simp only [klassNameOf, hsplit]

/-- Witness for the amended C5 theorem at the concrete registered instance
`exDsop`. -/
theorem dsop_roundtrip_amended_witness :
    Dsop.roundObj exReg exDsop ⟨none⟩ = .ok (some exDsop) ∧
    Dsop.roundDict exReg exDsop [] = .error .indexError :=
  ⟨dsop_roundtrip_amended.1 exReg exDsop ⟨none⟩ (by decide) (by decide) (by decide),
   dsop_roundtrip_amended.2 exReg exDsop [] (by decide) (by decide)⟩

/-
C9 — falsy inputs to the public deserializers.
-/

/-- The empty dict `{}` handed to `Object.from_dict`. -/
def emptyObjDict : ObjDict := ObjDict.mk none none none .nil none

/-- The empty dict `{}` handed to `RelatedObject.from_dict`. -/
def emptyRelDict : RelDict := RelDict.mk emptyObjDict none

/-- Claim C9: every falsy input (`None`, an empty dict, an absent bindings
object) makes the public deserializers return `None` rather than raise or
build an empty entity, and the missing-discriminator `ValueError` of the
domain-specific factory is raised only for truthy inputs lacking an
`xsi:type`. -/
theorem falsy_input_deserializers :
    ∀ (reg : DsopRegistry) (env : Env),
      Object.from_dict reg none env = .ok (none, env) ∧
      Object.from_dict reg (some emptyObjDict) env = .ok (none, env) ∧
      RelatedObject.from_dict reg none env = .ok (none, env) ∧
      RelatedObject.from_dict reg (some emptyRelDict) env = .ok (none, env) ∧
      Object.from_obj reg none env = .ok (none, env) ∧
      RelatedObject.from_obj reg none env = .ok (none, env) ∧
      Dsop.from_obj reg none = .ok none ∧
      Dsop.from_dict reg none = .ok none ∧
      Dsop.from_dict reg (some []) = .ok none ∧
      (∀ dd : DsopDict, dd ≠ [] → dd.lookup "xsi:type" = none →
        Dsop.from_dict reg (some dd) =
          .error (.valueError "dictionary does not have xsi:type key")) ∧
      (∀ b : DsopB, b.xsi_type = none →
        Dsop.from_obj reg (some b) = .error (.valueError "Object has no xsi:type")) := by
  intro reg env
  refine ⟨rfl, rfl, rfl, rfl, rfl, rfl, rfl, rfl, rfl, ?_, ?_⟩
  · intro dd hne hlook
    simp only [Dsop.from_dict, if_neg hne]
    rw [hlook]
  · intro b hb
    cases b with
    | mk xt => cases hb; rfl

/-- Witness for the C9 theorem at concrete inputs, including the test file's
`{'key': 'value'}` dict, which is truthy but has no `xsi:type`. -/
theorem falsy_input_deserializers_witness :
    Object.from_dict [] none env0 = .ok (none, env0) ∧
    Dsop.from_dict [] (some [("key", "value")]) =
      .error (.valueError "dictionary does not have xsi:type key") ∧
    Dsop.from_obj [] (some ⟨none⟩) = .error (.valueError "Object has no xsi:type") :=
  ⟨(falsy_input_deserializers [] env0).1,
   (falsy_input_deserializers [] env0).2.2.2.2.2.2.2.2.2.1 [("key", "value")]
     (by decide) (by decide),
   (falsy_input_deserializers [] env0).2.2.2.2.2.2.2.2.2.2 ⟨none⟩ rfl⟩

/-
C10 — the `properties` setter and `add_related`.
-/

/-- Claim C10 counterexample: assigning the falsy non-`ObjectProperties`
value `PyVal.pyOther false` (e.g. `0`, `""`, `[]`, `{}`) to the `properties`
slot does not raise — the guard only fires for truthy values — and the slot
afterwards holds a value that is neither `None` nor an `ObjectProperties`
instance, so the stated invariant is not preserved. -/
theorem properties_setter_counterexample :
    propertiesSetter ⟨some "Object-0", .pyProps exProps, false, true⟩ (.pyOther false) =
      .ok ⟨some "Object-0", .pyOther false, false, true⟩ ∧
    (PyVal.pyOther false).isProps = false ∧
    (PyVal.pyOther false) ≠ PyVal.pyNone := by
  exact ⟨rfl, rfl, by decide⟩

/-- Claim C10 (amended): assigning a *truthy* non-`ObjectProperties` value
raises `ValueError` before the slot is written, so the stored properties are
unchanged; assigning an `ObjectProperties` stores it and — when the instance
is a plain `Object`, or a `RelatedObject` with `_inline` — sets the payload's
`parent` to the object; falsy values (`None` or falsy junk) are stored as-is
with no parent update; and `add_related` raises `ValueError` for every
non-`ObjectProperties` argument. -/
theorem properties_setter_amended :
    (∀ (st : SlotState) (v : PyVal), v.truthy = true → v.isProps = false →
       propertiesSetter st v = .error (.valueError "Not a ObjectProperties")) ∧
    (∀ (st : SlotState) (p : ObjectProperties),
       st.isRelated = false ∨ st.isInline = true →
       propertiesSetter st (.pyProps p) =
         .ok { st with slot := .pyProps { p with parent := some st.id_ } }) ∧
    (∀ (st : SlotState) (p : ObjectProperties),
       st.isRelated = true → st.isInline = false →
       propertiesSetter st (.pyProps p) = .ok { st with slot := .pyProps p }) ∧
    (∀ st : SlotState, propertiesSetter st .pyNone = .ok { st with slot := .pyNone }) ∧
    (∀ st : SlotState, propertiesSetter st (.pyOther false) =
       .ok { st with slot := .pyOther false }) ∧
    (∀ (o : Object) (v : PyVal) (rel : Option VocabString) (inl : Bool) (env : Env),
       v.isProps = false →
       Object.add_related o v rel inl env = .error (.valueError "Must be a ObjectProperties")) := by
  refine ⟨?_, ?_, ?_, ?_, ?_, ?_⟩
  · intro st v ht hp
    cases v with
    | pyNone => simp [PyVal.truthy] at ht
    | pyProps p => simp [PyVal.isProps] at hp
    | pyOther t =>
        cases t with
        | false => simp [PyVal.truthy] at ht
        | true => rfl
  · intro st p h
    rcases h with h | h <;>
      · cases st with
        | mk i s r inl => simp_all [propertiesSetter, PyVal.truthy, PyVal.isProps]
  · intro st p hr hi
    cases st with
    | mk i s r inl =>
        cases hr; cases hi
        rfl
  · intro st
    simp [propertiesSetter, PyVal.truthy, PyVal.isProps]
  · intro st
    simp [propertiesSetter, PyVal.truthy, PyVal.isProps]
  · intro o v rel inl env hv
    cases v with
    | pyNone => rfl
    | pyProps p => simp [PyVal.isProps] at hv
    | pyOther t => rfl

/-- Witness for the amended C10 theorem at concrete inputs. -/
theorem properties_setter_amended_witness :
    propertiesSetter ⟨some "Object-0", .pyNone, false, true⟩ (.pyOther true) =
      .error (.valueError "Not a ObjectProperties") ∧
    propertiesSetter ⟨some "Object-0", .pyNone, false, true⟩ (.pyProps ⟨"File", "c", none⟩) =
      .ok ⟨some "Object-0", .pyProps ⟨"File", "c", some (some "Object-0")⟩, false, true⟩ ∧
    Object.add_related (Object.mk (some "Object-0") none none .nil none) (.pyOther true)
        none true env0 = .error (.valueError "Must be a ObjectProperties") :=
  ⟨properties_setter_amended.1 ⟨some "Object-0", .pyNone, false, true⟩ (.pyOther true)
     rfl rfl,
   properties_setter_amended.2.1 ⟨some "Object-0", .pyNone, false, true⟩ ⟨"File", "c", none⟩
     (Or.inl rfl),
   properties_setter_amended.2.2.2.2.2 (Object.mk (some "Object-0") none none .nil none)
     (.pyOther true) none true env0 rfl⟩

/-
C2 — id assignment and registration at construction time.
-/

/-- Claim C2 counterexample: constructing an inline node with a payload
assigns it the fresh id `"File-0"` but does not register it — the registry is
still empty and a lookup of that id immediately after construction fails with
`CacheMiss` instead of succeeding. -/
theorem construction_no_registration_counterexample :
    Object.init (some ⟨"File", "c", none⟩) env0 =
      (Object.mk (some "File-0") none (some ⟨"File", "c", some (some "File-0")⟩) .nil none,
       ⟨1, []⟩) ∧
    cache_get ⟨1, []⟩ "File-0" = .error .cacheMiss := by
  exact ⟨rfl, rfl⟩

/-- Claim C2 (amended): construction assigns a fresh id whose prefix is the
payload's class name (or the sentinel `"Object"` with no payload) but leaves
the identifier registry untouched; registration under the id happens only in
the deserializers (`from_obj`/`from_dict`), whose result is registered
exactly when its parsed id is truthy, so a lookup succeeds right after
deserialization, not right after construction. -/
theorem construction_id_and_registration_amended :
    (∀ (props : Option ObjectProperties) (env : Env),
       (Object.init props env).2.cache = env.cache) ∧
    (∀ (p : ObjectProperties) (env : Env),
       (Object.init (some p) env).1.id_ =
         some (p.className ++ "-" ++ toString env.counter)) ∧
    (∀ env : Env,
       (Object.init none env).1.id_ = some ("Object" ++ "-" ++ toString env.counter)) ∧
    (∀ (reg : DsopRegistry) (d : ObjDict) (env : Env) (o : Object) (env' : Env) (s : String),
       Object.from_dict_core reg d env = .ok (o, env') →
       o.id_ = some s → s ≠ "" →
       env'.cache.lookup s = some o) ∧
    (∀ (reg : DsopRegistry) (b : ObjB) (env : Env) (o : Object) (env' : Env) (s : String),
       Object.from_obj_core reg b env = .ok (o, env') →
       o.id_ = some s → s ≠ "" →
       env'.cache.lookup s = some o) := by
  refine ⟨?_, ?_, ?_, ?_, ?_⟩
  · intro props env
    cases props <;> rfl
  · intro p env; rfl
  · intro env; rfl
  · intro reg d env o env' s h hid hs
    cases d with
    | mk i ir pr rel ds =>
      simp only [Object.from_dict_core] at h
      cases hrel : RelObjList.from_dict reg rel ((create_id "Object" env).2) with
      | error e => rw [hrel, except_bind_error] at h; cases h
      | ok pr2 =>
        rw [hrel, except_bind_ok] at h
        cases hds : Dsop.from_dict reg ds with
        | error e => rw [hds, except_bind_error] at h; cases h
        | ok dsv =>
          rw [hds, except_bind_ok] at h
          cases h
          have hi : i = some s := by simpa [Object.id_] using hid
          subst hi
          simp [cachePutIfId, Object.id_, cache_put, List.lookup, hs]
  · intro reg b env o env' s h hid hs
    cases b with
    | mk i ir pr rel ds =>
      simp only [Object.from_obj_core] at h
      cases hds : Dsop.from_obj reg ds with
      | error e => rw [hds, except_bind_error] at h; cases h
      | ok dsv =>
        rw [hds, except_bind_ok] at h
        cases hrel : RelBList.from_obj reg rel ((create_id "Object" env).2) with
        | error e => rw [hrel, except_bind_error] at h; cases h
        | ok pr2 =>
          rw [hrel, except_bind_ok] at h
          cases h
          have hi : i = some s := by simpa [Object.id_] using hid
          subst hi
          simp [cachePutIfId, Object.id_, cache_put, List.lookup, hs]

/-- Witness for the amended C2 theorem at concrete inputs: construction
leaves the registry empty; deserializing `{'id': 'X-1'}` registers the result
under `"X-1"`. -/
theorem construction_id_and_registration_amended_witness :
    (Object.init (some ⟨"File", "c", none⟩) env0).2.cache = env0.cache ∧
    (Object.init (some ⟨"File", "c", none⟩) env0).1.id_ = some ("File" ++ "-" ++ toString (0 : Nat)) ∧
    (Env.cache ⟨1, [("X-1", Object.mk (some "X-1") none none .nil none)]⟩).lookup "X-1" =
      some (Object.mk (some "X-1") none none .nil none) :=
  ⟨construction_id_and_registration_amended.1 (some ⟨"File", "c", none⟩) env0,
   construction_id_and_registration_amended.2.1 ⟨"File", "c", none⟩ env0,
   construction_id_and_registration_amended.2.2.2.1 []
     (ObjDict.mk (some "X-1") none none .nil none) env0
     (Object.mk (some "X-1") none none .nil none)
     ⟨1, [("X-1", Object.mk (some "X-1") none none .nil none)]⟩ "X-1"
     rfl rfl (by decide)⟩

/-
C3 — `get_properties` and reference resolution.
-/

/-- Claim C3 counterexample: the reference node built by the constructor
(`inline = false`, payload kept, `idref = "Object-7"`) returns its owned
payload from `get_properties` even though it is not inline and its `idref`
was never registered — the claim instead requires a registry lookup
propagating `CacheMiss` for every non-inline node. -/
theorem get_properties_counterexample :
    RelatedObject.init (some exProps) none false env0 = .ok (exRefNode, ⟨1, []⟩) ∧
    exRefNode.isInline = false ∧
    RelatedObject.get_properties ⟨1, []⟩ exRefNode = .ok (some exProps) ∧
    cache_get ⟨1, []⟩ "Object-7" = .error .cacheMiss := by
  exact ⟨rfl, rfl, rfl, rfl⟩

/-- Claim C3 (amended): `get_properties` returns the owned payload whenever
one is present, regardless of the inline flag; only when no payload is stored
does it consult the registry for a truthy `idref`, returning the found
entity's properties or propagating `CacheMiss` unchanged when the id was
never registered (or the registry was cleared); with neither payload nor
truthy `idref` it returns `None` — it never substitutes a default payload
for an unresolved reference. -/
theorem get_properties_amended :
    (∀ (env : Env) (r : RelatedObject) (p : ObjectProperties),
       r.core.properties = some p →
       RelatedObject.get_properties env r = .ok (some p)) ∧
    (∀ (env : Env) (r : RelatedObject) (s : String),
       r.core.properties = none → r.core.idref = some s → s ≠ "" →
       env.cache.lookup s = none →
       RelatedObject.get_properties env r = .error .cacheMiss) ∧
    (∀ (env : Env) (r : RelatedObject) (s : String) (o : Object),
       r.core.properties = none → r.core.idref = some s → s ≠ "" →
       env.cache.lookup s = some o →
       RelatedObject.get_properties env r = .ok o.properties) ∧
    (∀ (env : Env) (r : RelatedObject),
       r.core.properties = none → r.core.idref = none →
       RelatedObject.get_properties env r = .ok none) := by
  refine ⟨?_, ?_, ?_, ?_⟩
  · intro env r p hp
    simp [RelatedObject.get_properties, hp]
  · intro env r s hp hi hs hl
    simp [RelatedObject.get_properties, hp, hi, hs, cache_get, hl]
  · intro env r s o hp hi hs hl
    simp [RelatedObject.get_properties, hp, hi, hs, cache_get, hl]
  · intro env r hp hi
    simp [RelatedObject.get_properties, hp, hi]

/-- Witness for the amended C3 theorem at concrete inputs: the constructed
reference node returns its payload; a deserialized reference node (payload
absent, `idref = "X-1"`) yields `CacheMiss` on an empty registry and the
registered entity's properties once `"X-1"` is registered. -/
theorem get_properties_amended_witness :
    RelatedObject.get_properties ⟨1, []⟩ exRefNode = .ok (some exProps) ∧
    RelatedObject.get_properties env0
      (RelatedObject.mk (Object.mk none (some "X-1") none .nil none) none true) =
      .error .cacheMiss ∧
    RelatedObject.get_properties ⟨0, [("X-1", Object.mk (some "X-1") none (some exProps) .nil none)]⟩
      (RelatedObject.mk (Object.mk none (some "X-1") none .nil none) none true) =
      .ok (some exProps) :=
  ⟨get_properties_amended.1 ⟨1, []⟩ exRefNode exProps rfl,
   get_properties_amended.2.1 env0
     (RelatedObject.mk (Object.mk none (some "X-1") none .nil none) none true) "X-1"
     rfl rfl (by decide) rfl,
   get_properties_amended.2.2.1 ⟨0, [("X-1", Object.mk (some "X-1") none (some exProps) .nil none)]⟩
     (RelatedObject.mk (Object.mk none (some "X-1") none .nil none) none true) "X-1"
     (Object.mk (some "X-1") none (some exProps) .nil none)
     rfl rfl (by decide) (by decide)⟩

/-
C4 — inline versus reference serialization.
-/

/-- Claim C4 counterexample: serializing the constructor-built reference node
(`inline = false`) to the tree representation emits its id and its full
payload alongside `idref` — `to_obj` delegates to `Object.to_obj`, which
re-emits the stored payload, contradicting the claim that a reference node
emits only `idref` and `relationship` in both representations. -/
theorem reference_to_obj_counterexample :
    exRefNode.isInline = false ∧
    RelatedObject.to_obj exRefNode =
      .ok (RelB.mk (ObjB.mk (some "File-0") (some "Object-7") (some ⟨"File", "c"⟩) .nil none)
            none) := by
  exact ⟨rfl, rfl⟩

/-- Claim C4 (amended): an inline node serializes its full payload plus
`relationship` when set, in both representations; a node with
`inline = false` emits only `idref` (written raw) and `relationship` in the
*map* representation, but in the *tree* representation `to_obj` builds the
full `Object` binding first — emitting truthy id and stored payload — and
then overwrites `idref`, so the payload is re-emitted there. -/
theorem related_serialization_amended :
    (∀ r : RelatedObject, r.isInline = true →
       RelatedObject.to_dict r =
         (Object.to_dict r.core).map
           (fun d => RelDict.mk d (r.relationship.map VocabString.value))) ∧
    (∀ r : RelatedObject, r.isInline = true →
       RelatedObject.to_obj r =
         (Object.to_obj r.core).map
           (fun b => RelB.mk b (r.relationship.map VocabString.value))) ∧
    (∀ r : RelatedObject, r.isInline = false →
       RelatedObject.to_dict r =
         .ok (RelDict.mk (ObjDict.mk none r.core.idref none .nil none)
               (r.relationship.map VocabString.value))) ∧
    (∀ (r : RelatedObject) (b : ObjB), r.isInline = false →
       Object.to_obj r.core = .ok b →
       RelatedObject.to_obj r =
         .ok (RelB.mk (b.setIdref r.core.idref) (r.relationship.map VocabString.value)) ∧
       b.Properties = r.core.properties.map ObjectProperties.toForm) := by
  refine ⟨?_, ?_, ?_, ?_⟩
  · intro r h
    cases r with
    | mk core rl inl =>
      cases h
      simp only [RelatedObject.to_dict, RelatedObject.core, RelatedObject.relationship]
      cases hc : Object.to_dict core with
      | error e => rw [except_bind_error]; rfl
      | ok d => rw [except_bind_ok]; rfl
  · intro r h
    cases r with
    | mk core rl inl =>
      cases h
      simp only [RelatedObject.to_obj, RelatedObject.core, RelatedObject.relationship]
      cases hc : Object.to_obj core with
      | error e => rw [except_bind_error]; rfl
      | ok b => rw [except_bind_ok]; rfl
  · intro r h
    cases r with
    | mk core rl inl =>
      cases h
      rfl
  · intro r b h hb
    cases r with
    | mk core rl inl =>
      cases h
      simp only [RelatedObject.core] at hb
      refine ⟨?_, ?_⟩
      · simp only [RelatedObject.to_obj, RelatedObject.core, RelatedObject.relationship]
        rw [hb, except_bind_ok]
        rfl
      · simp only [RelatedObject.core, Object.properties]
        cases core with
        | mk i ir pr rel ds =>
          simp only [Object.to_obj] at hb
          simp only [Object.properties]
          cases hrel : RelObjList.to_obj rel with
          | error e => rw [hrel, except_bind_error] at hb; cases hb
          | ok relB =>
            rw [hrel, except_bind_ok] at hb
            cases ds with
            | some d => cases hb
            | none =>
              cases hb
              rfl

/-- Witness for the amended C4 theorem: the inline node serializes its full
payload in both representations; the reference node `exRefNode` emits only
`idref` in the map but re-emits its payload in the tree. -/
theorem related_serialization_amended_witness :
    RelatedObject.to_dict (RelatedObject.mk (Object.mk (some "A-0") none
        (some ⟨"Address", "a", some (some "A-0")⟩) .nil none) (some ⟨"Contains"⟩) true) =
      .ok (RelDict.mk (ObjDict.mk (some "A-0") none (some ⟨"Address", "a"⟩) .nil none)
            (some "Contains")) ∧
    RelatedObject.to_dict exRefNode =
      .ok (RelDict.mk (ObjDict.mk none (some "Object-7") none .nil none) none) ∧
    RelatedObject.to_obj exRefNode =
      .ok (RelB.mk ((ObjB.mk (some "File-0") (some "Object-7") (some ⟨"File", "c"⟩) .nil
            none).setIdref (some "Object-7")) none) ∧
    (ObjB.mk (some "File-0") (some "Object-7") (some ⟨"File", "c"⟩) .nil none).Properties =
      (Object.properties exRefNode.core).map ObjectProperties.toForm :=
  ⟨by
      have := related_serialization_amended.1
        (RelatedObject.mk (Object.mk (some "A-0") none
          (some ⟨"Address", "a", some (some "A-0")⟩) .nil none) (some ⟨"Contains"⟩) true) rfl
      rw [this]; rfl,
   by
      have := related_serialization_amended.2.2.1 exRefNode rfl
      rw [this]; rfl,
   (related_serialization_amended.2.2.2 exRefNode
      (ObjB.mk (some "File-0") (some "Object-7") (some ⟨"File", "c"⟩) .nil none) rfl
      (by rfl)).1,
   (related_serialization_amended.2.2.2 exRefNode
      (ObjB.mk (some "File-0") (some "Object-7") (some ⟨"File", "c"⟩) .nil none) rfl
      (by rfl)).2⟩

/-
C7 — the exactly-one-of-payload-or-idref invariant.
-/

/-- Claim C7 counterexample: the invariant fails in both directions — the
constructor-built reference node has a present payload *and* a set `idref`
with `inline = false`, and the deserialized reference dict
`{'idref': 'X-1'}` yields a node with `idref` present but `inline = true`,
so neither of the claim's two permitted configurations holds for it. -/
theorem reference_invariant_counterexample :
    (RelatedObject.init (some exProps) none false env0 = .ok (exRefNode, ⟨1, []⟩) ∧
     (exRefNode.core.properties).isSome = true ∧
     exRefNode.core.idref = some "Object-7" ∧
     exRefNode.isInline = false) ∧
    (RelatedObject.from_dict [] (some (RelDict.mk (ObjDict.mk none (some "X-1") none .nil none)
        none)) env0 =
      .ok (some (RelatedObject.mk (Object.mk none (some "X-1") none .nil none) none true),
           ⟨1, []⟩) ∧
     (RelatedObject.mk (Object.mk none (some "X-1") none .nil none) none true).isInline = true) := by
  exact ⟨⟨rfl, rfl, rfl, rfl⟩, ⟨rfl, rfl⟩⟩

/-- Claim C7 (amended): the shapes actually established are — construction
with `inline = false` and a payload keeps the payload, sets `idref` from the
payload's parent's id and leaves `inline = false` (payload and idref
coexist); and every node produced by `from_obj`/`from_dict` has
`inline = true`, whatever its `idref`, because the deserializers force the
flag to the default `True` (and re-force it when `idref` is truthy). -/
theorem reference_node_shape_amended :
    (∀ (p : ObjectProperties) (rel : Option VocabString) (env : Env)
       (r : RelatedObject) (env' : Env),
       RelatedObject.init (some p) rel false env = .ok (r, env') →
       r.core.properties = some p ∧ r.isInline = false ∧
       ∃ pid, p.parent = some pid ∧ r.core.idref = pid) ∧
    (∀ (reg : DsopRegistry) (e : Option RelDict) (env : Env)
       (r : RelatedObject) (env' : Env),
       RelatedObject.from_dict reg e env = .ok (some r, env') →
       r.isInline = true) ∧
    (∀ (reg : DsopRegistry) (e : Option RelB) (env : Env)
       (r : RelatedObject) (env' : Env),
       RelatedObject.from_obj reg e env = .ok (some r, env') →
       r.isInline = true) := by
  refine ⟨?_, ?_, ?_⟩
  · intro p rel env r env' h
    cases hp : p.parent with
    | none =>
      exfalso
      have hinit : RelatedObject.init (some p) rel false env = .error .attributeError := by
        simp [RelatedObject.init, hp]
      rw [hinit] at h
      cases h
    | some pid =>
      have hinit : RelatedObject.init (some p) rel false env =
          .ok (RelatedObject.mk
                (Object.mk (some (create_id p.className env).1) pid (some p) .nil none)
                rel false,
               (create_id p.className env).2) := by
        simp [RelatedObject.init, hp]
      rw [hinit] at h
      cases h
      exact ⟨rfl, rfl, pid, rfl, rfl⟩
  · intro reg e env r env' h
    cases e with
    | none => simp [RelatedObject.from_dict] at h
    | some ee =>
      simp only [RelatedObject.from_dict] at h
      by_cases ht : ee.truthy
      · rw [if_pos ht] at h
        cases hc : RelatedObject.from_dict_core reg ee env with
        | error er => rw [hc] at h; cases h
        | ok pr =>
          rw [hc] at h
          cases ee with
          | mk core rl =>
            simp only [RelatedObject.from_dict_core] at hc
            cases ho : Object.from_dict_core reg core env with
            | error er => rw [ho, except_bind_error] at hc; cases hc
            | ok po =>
              rw [ho, except_bind_ok] at hc
              cases hc
              simp only [Except.map] at h
              cases h
              rfl
      · rw [if_neg ht] at h
        cases h
  · intro reg e env r env' h
    cases e with
    | none => simp [RelatedObject.from_obj] at h
    | some ee =>
      simp only [RelatedObject.from_obj] at h
      cases hc : RelatedObject.from_obj_core reg ee env with
      | error er => rw [hc] at h; cases h
      | ok pr =>
        rw [hc] at h
        cases ee with
        | mk core rl =>
          simp only [RelatedObject.from_obj_core] at hc
          cases ho : Object.from_obj_core reg core env with
          | error er => rw [ho, except_bind_error] at hc; cases hc
          | ok po =>
            rw [ho, except_bind_ok] at hc
            cases hc
            simp only [Except.map] at h
            cases h
            rfl

/-- Witness for the amended C7 theorem at concrete inputs. -/
theorem reference_node_shape_amended_witness :
    (exRefNode.core.properties = some exProps ∧ exRefNode.isInline = false ∧
     ∃ pid, exProps.parent = some pid ∧ exRefNode.core.idref = pid) ∧
    (RelatedObject.mk (Object.mk none (some "X-1") none .nil none) none true).isInline = true :=
  ⟨reference_node_shape_amended.1 exProps none env0 exRefNode ⟨1, []⟩ rfl,
   reference_node_shape_amended.2.1 [] (some (RelDict.mk (ObjDict.mk none (some "X-1") none
       .nil none) none)) env0
     (RelatedObject.mk (Object.mk none (some "X-1") none .nil none) none true) ⟨1, []⟩ rfl⟩

/-
C1 — the round-trip law.
-/

/-- Claim C1 counterexample: the constructor-built reference node does not
survive the map round-trip — `from_dict(to_dict(e))` yields a node with the
id and payload dropped and the inline flag flipped to `true`, which differs
from `e` field-by-field. -/
theorem roundtrip_reference_node_counterexample :
    RelatedObject.roundDict [] exRefNode ⟨1, []⟩ =
      .ok (some (RelatedObject.mk (Object.mk none (some "Object-7") none .nil none)
            none true)) ∧
    RelatedObject.mk (Object.mk none (some "Object-7") none .nil none) none true ≠
      exRefNode := by
  exact ⟨rfl, by decide⟩

/-- A truthy optional string survives the emission guard. -/
theorem keepTruthy_of_truthy (o : Option String) (h : strTruthy o = true) :
    keepTruthy o = o := by
  simp [keepTruthy, h]

/-- An optional string that is `none` or truthy survives the emission
guard. -/
theorem keepTruthy_of_wfIdref (ir : Option String)
    (h : (match ir with | some s => decide (s ≠ "") | none => true) = true) :
    keepTruthy ir = ir := by
  cases ir with
  | none => rfl
  | some s =>
      have hs := of_decide_eq_true h
      simp [keepTruthy, strTruthy, hs]

/-- A payload whose `parent` records the owner is restored exactly by
factory parsing followed by the setter's parent update. -/
theorem props_form_roundtrip (pr : Option ObjectProperties) (i : Option String)
    (h : (match pr with | some p => decide (p.parent = some i) | none => true) = true) :
    (ObjectPropertiesFactory.fromForm (pr.map ObjectProperties.toForm)).map
      (fun p => { p with parent := some i }) = pr := by
  cases pr with
  | none => rfl
  | some p =>
      cases p with
      | mk cn ct pa =>
          have hp := of_decide_eq_true h
          simp only at hp
          rw [hp]
          rfl

/-- The vocabulary relationship survives emission and the factory. -/
theorem vocab_map_roundtrip (rl : Option VocabString) :
    (rl.map VocabString.value).map VocabString.mk = rl := by
  cases rl <;> rfl

mutual
/-- Dict-direction inverse for well-formed objects: serialization succeeds,
the output dict is truthy, and the core parser rebuilds the object
field-by-field. -/
theorem objToFromDict (reg : DsopRegistry) (o : Object)
    (h : Object.wf o = true) (env : Env) :
    ∃ d env', Object.to_dict o = .ok d ∧ d.truthy = true ∧
      Object.from_dict_core reg d env = .ok (o, env') := by
  cases o with
  | mk i ir pr rel ds =>
    simp only [Object.wf, Bool.and_eq_true] at h
    obtain ⟨⟨⟨⟨h1, h2⟩, h3⟩, h4⟩, h5⟩ := h
    have hds : ds = none := by
      cases ds with
      | none => rfl
      | some d => simp [Option.isNone] at h4
    subst hds
    obtain ⟨relD, env2, hrelTo, hrelFrom⟩ :=
      relListToFromDict reg rel h5 ((create_id "Object" env).2)
    refine ⟨ObjDict.mk i ir (pr.map ObjectProperties.toForm) relD none,
      cachePutIfId env2 (Object.mk i ir pr rel none), ?_, ?_, ?_⟩
    · simp only [Object.to_dict]
      rw [hrelTo, except_bind_ok]
      rw [keepTruthy_of_truthy i h1, keepTruthy_of_wfIdref ir h2]
    · cases i with
      | none => simp [strTruthy] at h1
      | some s => simp [ObjDict.truthy]
    · simp only [Object.from_dict_core]
      rw [hrelFrom, except_bind_ok]
      rw [show Dsop.from_dict reg none = .ok none from rfl, except_bind_ok]
      rw [props_form_roundtrip pr i h3]

/-- Dict-direction inverse for well-formed related objects. -/
theorem relToFromDict (reg : DsopRegistry) (r : RelatedObject)
    (h : RelatedObject.wf r = true) (env : Env) :
    ∃ e env', RelatedObject.to_dict r = .ok e ∧ e.truthy = true ∧
      RelatedObject.from_dict_core reg e env = .ok (r, env') := by
  cases r with
  | mk core rl inl =>
    simp only [RelatedObject.wf, Bool.and_eq_true] at h
    obtain ⟨h1, h2⟩ := h
    subst h1
    obtain ⟨d, env', hto, htr, hfrom⟩ := objToFromDict reg core h2 env
    refine ⟨RelDict.mk d (rl.map VocabString.value), env', ?_, ?_, ?_⟩
    · simp only [RelatedObject.to_dict]
      rw [hto, except_bind_ok]
      simp
    · simp [RelDict.truthy, htr]
    · simp only [RelatedObject.from_dict_core]
      rw [hfrom, except_bind_ok, vocab_map_roundtrip]

/-- Dict-direction inverse for well-formed related-object lists. -/
theorem relListToFromDict (reg : DsopRegistry) (l : RelObjList)
    (h : RelObjList.wf l = true) (env : Env) :
    ∃ ld env', RelObjList.to_dict l = .ok ld ∧
      RelObjList.from_dict reg ld env = .ok (l, env') := by
  cases l with
  | nil => exact ⟨.nil, env, rfl, rfl⟩
  | cons hd tl =>
    simp only [RelObjList.wf, Bool.and_eq_true] at h
    obtain ⟨h1, h2⟩ := h
    obtain ⟨e, env1, hto1, _, hfrom1⟩ := relToFromDict reg hd h1 env
    obtain ⟨ld, env2, hto2, hfrom2⟩ := relListToFromDict reg tl h2 env1
    refine ⟨.cons e ld, env2, ?_, ?_⟩
    · simp only [RelObjList.to_dict]
      rw [hto1, except_bind_ok, hto2, except_bind_ok]
    · simp only [RelObjList.from_dict]
      rw [hfrom1, except_bind_ok, hfrom2, except_bind_ok]
end

mutual
/-- Tree-direction inverse for well-formed objects. -/
theorem objToFromObj (reg : DsopRegistry) (o : Object)
    (h : Object.wf o = true) (env : Env) :
    ∃ b env', Object.to_obj o = .ok b ∧
      Object.from_obj_core reg b env = .ok (o, env') := by
  cases o with
  | mk i ir pr rel ds =>
    simp only [Object.wf, Bool.and_eq_true] at h
    obtain ⟨⟨⟨⟨h1, h2⟩, h3⟩, h4⟩, h5⟩ := h
    have hds : ds = none := by
      cases ds with
      | none => rfl
      | some d => simp [Option.isNone] at h4
    subst hds
    obtain ⟨relB, env2, hrelTo, hrelFrom⟩ :=
      relListToFromObj reg rel h5 ((create_id "Object" env).2)
    refine ⟨ObjB.mk i ir (pr.map ObjectProperties.toForm) relB none,
      cachePutIfId env2 (Object.mk i ir pr rel none), ?_, ?_⟩
    · simp only [Object.to_obj]
      rw [hrelTo, except_bind_ok]
      rw [keepTruthy_of_truthy i h1, keepTruthy_of_wfIdref ir h2]
    · simp only [Object.from_obj_core]
      rw [show Dsop.from_obj reg none = .ok none from rfl, except_bind_ok]
      rw [hrelFrom, except_bind_ok]
      rw [props_form_roundtrip pr i h3]

/-- Tree-direction inverse for well-formed related objects. -/
theorem relToFromObj (reg : DsopRegistry) (r : RelatedObject)
    (h : RelatedObject.wf r = true) (env : Env) :
    ∃ e env', RelatedObject.to_obj r = .ok e ∧
      RelatedObject.from_obj_core reg e env = .ok (r, env') := by
  cases r with
  | mk core rl inl =>
    simp only [RelatedObject.wf, Bool.and_eq_true] at h
    obtain ⟨h1, h2⟩ := h
    subst h1
    obtain ⟨b, env', hto, hfrom⟩ := objToFromObj reg core h2 env
    refine ⟨RelB.mk b (rl.map VocabString.value), env', ?_, ?_⟩
    · simp only [RelatedObject.to_obj]
      rw [hto, except_bind_ok]
      rfl
    · simp only [RelatedObject.from_obj_core]
      rw [hfrom, except_bind_ok, vocab_map_roundtrip]

/-- Tree-direction inverse for well-formed related-object lists. -/
theorem relListToFromObj (reg : DsopRegistry) (l : RelObjList)
    (h : RelObjList.wf l = true) (env : Env) :
    ∃ lb env', RelObjList.to_obj l = .ok lb ∧
      RelBList.from_obj reg lb env = .ok (l, env') := by
  cases l with
  | nil => exact ⟨.nil, env, rfl, rfl⟩
  | cons hd tl =>
    simp only [RelObjList.wf, Bool.and_eq_true] at h
    obtain ⟨h1, h2⟩ := h
    obtain ⟨e, env1, hto1, hfrom1⟩ := relToFromObj reg hd h1 env
    obtain ⟨lb, env2, hto2, hfrom2⟩ := relListToFromObj reg tl h2 env1
    refine ⟨.cons e lb, env2, ?_, ?_⟩
    · simp only [RelObjList.to_obj]
      rw [hto1, except_bind_ok, hto2, except_bind_ok]
    · simp only [RelBList.from_obj]
      rw [hfrom1, except_bind_ok, hfrom2, except_bind_ok]
end

/-- Claim C1 (amended): the round-trip law `from_tree(to_tree(e)) == e` and
`from_map(to_map(e)) == e` holds field-by-field — including `id_`, `idref`,
`properties`, `relationship`, `related_objects` and the inline flag — for
every `Object` and `RelatedObject` that is well-formed for serialization: a
truthy id, `idref` absent or truthy, payload `parent` recording the owner, no
domain-specific properties, and every related node inline (recursively).
For reference nodes (`inline = false`) the law fails: the map round-trip
drops the id and payload and flips the inline flag to `true`, and the tree
round-trip likewise returns an inline node. -/
theorem entity_roundtrip_amended :
    (∀ (reg : DsopRegistry) (o : Object) (env : Env), Object.wf o = true →
       Object.roundDict reg o env = .ok (some o) ∧
       Object.roundObj reg o env = .ok (some o)) ∧
    (∀ (reg : DsopRegistry) (r : RelatedObject) (env : Env), RelatedObject.wf r = true →
       RelatedObject.roundDict reg r env = .ok (some r) ∧
       RelatedObject.roundObj reg r env = .ok (some r)) := by
  constructor
  · intro reg o env h
    constructor
    · obtain ⟨d, env', hto, htr, hfrom⟩ := objToFromDict reg o h env
      simp only [Object.roundDict]
      rw [hto]
      simp only [Object.from_dict, if_pos htr]
      rw [hfrom]
      rfl
    · obtain ⟨b, env', hto, hfrom⟩ := objToFromObj reg o h env
      simp only [Object.roundObj]
      rw [hto]
      simp only [Object.from_obj]
      rw [hfrom]
      rfl
  · intro reg r env h
    constructor
    · obtain ⟨e, env', hto, htr, hfrom⟩ := relToFromDict reg r h env
      simp only [RelatedObject.roundDict]
      rw [hto]
      simp only [RelatedObject.from_dict, if_pos htr]
      rw [hfrom]
      rfl
    · obtain ⟨e, env', hto, hfrom⟩ := relToFromObj reg r h env
      simp only [RelatedObject.roundObj]
      rw [hto]
      simp only [RelatedObject.from_obj]
      rw [hfrom]
      rfl

/-- An inline object graph used as the round-trip witness: a `File` object
with one inline related `Address` node carrying a `Contains` relationship. -/
def exInlineGraph : Object :=
  Object.mk (some "File-1") none (some ⟨"File", "c", some (some "File-1")⟩)
    (.cons (RelatedObject.mk
      (Object.mk (some "Address-0") none (some ⟨"Address", "a", some (some "Address-0")⟩)
        .nil none)
      (some ⟨"Contains"⟩) true) .nil)
    none

/-- Witness for the amended C1 theorem at the concrete inline graph. -/
theorem entity_roundtrip_amended_witness :
    Object.roundDict [] exInlineGraph ⟨2, []⟩ = .ok (some exInlineGraph) ∧
    Object.roundObj [] exInlineGraph ⟨2, []⟩ = .ok (some exInlineGraph) :=
  entity_roundtrip_amended.1 [] exInlineGraph ⟨2, []⟩ (by decide)

end CyboxModel
